import Mathlib

/-!
Shallow embedding of `src/ch07/doubleLinkNode.py`: the doubly linked list base
class `_DoublyLinkedBase`, the `LinkedDeque` built on it, and the
`PositionalList` with its nested `Position` class.

Two facts about the module are decisive and are modelled exactly:

* `_Node.__slots__` is `'element', '_prev', '_next'`, but `_Node.__init__`
  assigns `self._element` (and the rest of the class reads and writes
  `_element` throughout).  A class with `__slots__` and no inherited
  `__dict__` raises `AttributeError` on any access to an attribute that is
  not a declared slot, so in CPython every `_Node(...)` construction raises,
  `_DoublyLinkedBase.__init__` raises, and every read or write of
  `node._element` raises.  The embedding carries the declared slot list
  (`nodeSlots`) and gates every `_element` access on membership in it, so
  these `AttributeError`s fall out of the definitions instead of being
  assumed away.  Accesses to `_prev` and `_next` are declared slots and
  succeed.
* `doubleLinkNode.py` contains no import statement and no definition of
  `Empty`; the class of that name lives only in `src/ch06/arrayStack.py`.
  Hence `raise Empty('Deque is empty.')` in the four deque methods raises
  `NameError` (evaluating the undefined name), not the `Empty` exception the
  docstrings announce; this is `Err.nameError` below.

Remaining conventions:

* A Python node object is a `Node` record stored in a per-list arena
  (`List Node`); a node reference is its index in the arena.  Since the
  constructor raises, no arena is ever populated by the code itself; states
  with nodes in them appear below only as hand-built fixtures for evaluating
  what the remaining code does on the states the specification presupposes.
* Python `None` in value or link fields is `Option.none`; elements supplied
  by callers are `Int`s, stored as `some e`.
* Each `PositionalList` instance carries a `tag : Nat` standing for its
  Python object identity (the `is` comparison in `_validate`).  A list's
  nodes live in its own arena and no node is ever shared between instances,
  so the identity of a node object is the pair (owning instance's tag, arena
  index); a `Position` stores exactly that pair.
* Exceptions are the `Err` type: the two `ValueError`s of `_validate` (the
  specification's InvalidPosition) are `Err.invalidPosition`; an attribute
  access that CPython rejects (the `_element` accesses above, or an
  attribute of `None`) is `Err.attributeError`; the undefined name `Empty`
  is `Err.nameError`; `Err.emptyContainer` is the error the specification
  calls EmptyContainer, which this module as written can never raise.
-/

/-- Exceptions (see the conventions above).  `emptyContainer` is listed for
the specification's error taxonomy; no operation of this module produces
it. -/
inductive Err where
  | emptyContainer
  | invalidPosition
  | attributeError
  | nameError
deriving Repr, DecidableEq

/-- `_Node.__slots__ = 'element', '_prev', '_next'` as written in the
source: note `'element'`, not `'_element'`. -/
def nodeSlots : List String :=
  ["element", "_prev", "_next"]

/-- A `_DoublyLinkedBase._Node` record as its class declares it: the three
slots `element`, `_prev`, `_next`.  The `element` slot exists but no line of
the module ever reads or writes it - the code uses `_element`, which is not
a slot; every such access is gated below on `"_element" ∈ nodeSlots`. -/
structure Node where
  element : Option Int
  prev : Option Nat
  next : Option Nat
deriving Repr, DecidableEq

/-- `_Node.__init__`: the first statement `self._element = element` assigns
an attribute that is not a declared slot, so CPython raises
`AttributeError` before `_prev` and `_next` are ever set.  The nested
branches mirror the three assignments in source order; the innermost one is
unreachable (proved below). -/
def nodeInit (element : Option Int) (prev next : Option Nat) :
    Except Err Node :=
  if ("_element" ∈ nodeSlots) then
    if ("_prev" ∈ nodeSlots) then
      if ("_next" ∈ nodeSlots) then .ok ⟨element, prev, next⟩
      else .error .attributeError
    else .error .attributeError
  else .error .attributeError

/-- State of a `_DoublyLinkedBase`: the arena of every node held by this
instance, the indices of the `_header` and `_trailer` sentinels, and
`_size` (a Python int, kept as `Int`). -/
structure DLBase where
  nodes : List Node
  header : Nat
  trailer : Nat
  size : Int
deriving Repr, DecidableEq

/-- Dereference a node: `none` when the index is not an allocated node. -/
def DLBase.nodeAt (b : DLBase) (i : Nat) : Option Node :=
  b.nodes[i]?

/-- `node._next = v`: `_next` is a declared slot, so the assignment
succeeds (a no-op on an unallocated index, which never occurs). -/
def DLBase.setNext (b : DLBase) (i : Nat) (v : Option Nat) : DLBase :=
  match b.nodes[i]? with
  | some n => { b with nodes := b.nodes.set i { n with next := v } }
  | none => b

/-- `node._prev = v`: `_prev` is a declared slot. -/
def DLBase.setPrev (b : DLBase) (i : Nat) (v : Option Nat) : DLBase :=
  match b.nodes[i]? with
  | some n => { b with nodes := b.nodes.set i { n with prev := v } }
  | none => b

/-- Overwrite node `i` wholesale (the deprecation record `_delete_node`
would leave if its `_element` accesses could succeed). -/
def DLBase.putNode (b : DLBase) (i : Nat) (n : Node) : DLBase :=
  { b with nodes := b.nodes.set i n }

/-- `_DoublyLinkedBase.__init__`: `self._header = self._Node(None, None,
None)` raises `AttributeError` inside `_Node.__init__` on its very first
statement, so no `_DoublyLinkedBase` - hence no `LinkedDeque` and no
`PositionalList` - is ever constructed.  The success branch builds the state
the constructor is written to produce (header 0 and trailer 1 linked, size
0); it is dead code, as proved below. -/
def DLBase.init : Except Err DLBase :=
  match nodeInit none none none with
  | .error er => .error er
  | .ok hdr =>
    match nodeInit none none none with
    | .error er => .error er
    | .ok tra =>
      .ok ⟨[{ hdr with next := some 1 }, { tra with prev := some 0 }], 0, 1, 0⟩

/-- `__len__`. -/
def DLBase.len (b : DLBase) : Int :=
  b.size

/-- `is_empty`: `self._size == 0`. -/
def DLBase.isEmpty (b : DLBase) : Bool :=
  b.size == 0

/-- `_DoublyLinkedBase._insert_between`: the first statement
`newest = self._Node(e, predecessor, successor)` raises `AttributeError`
inside `_Node.__init__`, before any splicing, so the list state is never
changed and the count is never incremented.  The success branch performs the
splice the method is written to perform; it is dead code (proved below). -/
def DLBase.insertBetweenPy (b : DLBase) (e : Option Int) (pred succ : Nat) :
    Except Err (Nat × DLBase) :=
  match nodeInit e (some pred) (some succ) with
  | .error er => .error er
  | .ok n =>
    let newest := b.nodes.length
    let b1 : DLBase := { b with nodes := b.nodes ++ [n] }
    let b2 := b1.setNext pred (some newest)
    let b3 := b2.setPrev succ (some newest)
    .ok (newest, { b3 with size := b3.size + 1 })

/-- `_DoublyLinkedBase._delete_node`, statement by statement: it reads the
node's `_prev` and `_next` (declared slots - these succeed on an
initialised node), relinks the neighbours, decrements `_size`, and only
then executes `element = node._element`, which raises `AttributeError`
(`_element` is not a slot).  The exception propagates with the relinking
and the size decrement already applied to the list object, and the
deprecation line `node._prev = node._next = node._element = None` is never
executed - so a deleted-node mark is never written.  The result pairs the
raised-or-returned value with the state the object is left in. -/
def DLBase.deleteNodePy (b : DLBase) (i : Nat) :
    (Except Err (Option Int)) × DLBase :=
  match b.nodeAt i with
  | none => (.error .attributeError, b)
  | some node =>
    match node.prev, node.next with
    | some pred, some succ =>
      let b1 := b.setNext pred (some succ)
      let b2 := b1.setPrev succ (some pred)
      let b3 : DLBase := { b2 with size := b2.size - 1 }
      if ("_element" ∈ nodeSlots) then
        (.ok node.element, b3.putNode i ⟨none, none, none⟩)
      else
        (.error .attributeError, b3)
    | _, _ => (.error .attributeError, b)

/-! ## LinkedDeque

`LinkedDeque` adds no state of its own; its operations act on a `DLBase`.
`LinkedDeque()` itself can never be constructed (`DLBase.init` raises).  In
every method, `raise Empty('Deque is empty.')` evaluates the undefined name
`Empty` and raises `NameError`. -/

/-- `LinkedDeque.first`: on an empty deque the `raise Empty(...)` is a
`NameError`; otherwise `self._header._next._element` raises
`AttributeError` at the `_element` read. -/
def LinkedDeque.firstPy (b : DLBase) : Except Err (Option Int) :=
  if b.isEmpty then .error .nameError
  else
    match b.nodeAt b.header with
    | none => .error .attributeError
    | some hn =>
      match hn.next with
      | none => .error .attributeError
      | some i =>
        match b.nodeAt i with
        | none => .error .attributeError
        | some n =>
          if ("_element" ∈ nodeSlots) then .ok n.element
          else .error .attributeError

/-- `LinkedDeque.last`: as `first`, via `self._trailer._prev._element`. -/
def LinkedDeque.lastPy (b : DLBase) : Except Err (Option Int) :=
  if b.isEmpty then .error .nameError
  else
    match b.nodeAt b.trailer with
    | none => .error .attributeError
    | some tn =>
      match tn.prev with
      | none => .error .attributeError
      | some i =>
        match b.nodeAt i with
        | none => .error .attributeError
        | some n =>
          if ("_element" ∈ nodeSlots) then .ok n.element
          else .error .attributeError

/-- `LinkedDeque.delete_first`: `NameError` when empty (undefined `Empty`);
otherwise `_delete_node(self._header._next)`, which relinks and decrements
before raising at its `_element` read. -/
def LinkedDeque.deleteFirstPy (b : DLBase) :
    (Except Err (Option Int)) × DLBase :=
  if b.isEmpty then (.error .nameError, b)
  else
    match b.nodeAt b.header with
    | none => (.error .attributeError, b)
    | some hn =>
      match hn.next with
      | none => (.error .attributeError, b)
      | some i => b.deleteNodePy i

/-- `LinkedDeque.delete_last`: as `delete_first`, via `self._trailer._prev`. -/
def LinkedDeque.deleteLastPy (b : DLBase) :
    (Except Err (Option Int)) × DLBase :=
  if b.isEmpty then (.error .nameError, b)
  else
    match b.nodeAt b.trailer with
    | none => (.error .attributeError, b)
    | some tn =>
      match tn.prev with
      | none => (.error .attributeError, b)
      | some i => b.deleteNodePy i

/-! ## PositionalList -/

/-- A `PositionalList`: the inherited `_DoublyLinkedBase` state plus the
instance's object identity, against which `_validate` compares
`p._container is self`. -/
structure PositionalList where
  tag : Nat
  base : DLBase
deriving Repr, DecidableEq

/-- `PositionalList.Position`: wraps `self._container` (the owning
instance's identity) and `self._node` (a node reference: the pair of its
owner's tag and its arena index, see the conventions above).
`Position.__init__` performs two ordinary attribute assignments on an
ordinary class (no `__slots__`), so constructing a Position succeeds. -/
structure Position where
  container : Nat
  node : Nat
deriving Repr, DecidableEq

/-- `Position.__eq__`: `type(other) is type(self) and other._node is
self._node`.  Node identity is the (owner tag, arena index) pair, which
`Position` stores verbatim, so `is` on the wrapped nodes compares both
components. -/
def Position.beq (p other : Position) : Bool :=
  p.container == other.container && p.node == other.node

/-- `Position.__ne__`: `not (self == other)`. -/
def Position.bne (p other : Position) : Bool :=
  !(p.beq other)

/-- `PositionalList()` with object identity `t`: the inherited
`_DoublyLinkedBase.__init__` raises before the instance exists. -/
def PositionalList.init (t : Nat) : Except Err PositionalList :=
  match DLBase.init with
  | .error er => .error er
  | .ok b => .ok ⟨t, b⟩

/-- `len(L)`. -/
def PositionalList.length (L : PositionalList) : Int :=
  L.base.size

/-- `PositionalList._validate`: the `isinstance` test always passes here
(`Position` is the only Position type); then `p._container is not self` and
the deprecated-node test `p._node._next is None`, both raising `ValueError`
(the specification's InvalidPosition).  `_next` is a declared slot, so this
method performs no failing attribute access; it returns the node('s
index). -/
def PositionalList.validate (L : PositionalList) (p : Position) :
    Except Err Nat :=
  if p.container ≠ L.tag then .error .invalidPosition
  else
    match L.base.nodeAt p.node with
    | none => .error .attributeError
    | some n =>
      if n.next = none then .error .invalidPosition
      else .ok p.node

/-- `PositionalList._make_position`: `None` for a sentinel, otherwise
`Position(self, node)`. -/
def PositionalList.makePosition (L : PositionalList) (i : Nat) : Option Position :=
  if i = L.base.header ∨ i = L.base.trailer then none
  else some ⟨L.tag, i⟩

/-- `PositionalList.first`: `_make_position(self._header._next)` - only
`_next` is read, a declared slot, so this never raises.  The `none`
fallbacks cover an unallocated header or a `None` header link, which no
state built by this code exhibits. -/
def PositionalList.first (L : PositionalList) : Option Position :=
  match L.base.nodeAt L.base.header with
  | some hn =>
    match hn.next with
    | some i => L.makePosition i
    | none => none
  | none => none

/-- `PositionalList.last`: `_make_position(self._trailer._prev)`. -/
def PositionalList.last (L : PositionalList) : Option Position :=
  match L.base.nodeAt L.base.trailer with
  | some tn =>
    match tn.prev with
    | some i => L.makePosition i
    | none => none
  | none => none

/-- `PositionalList.before`: validate, then `_make_position(node._prev)` -
no `_element` access, so no slots failure. -/
def PositionalList.before (L : PositionalList) (p : Position) :
    Except Err (Option Position) :=
  match L.validate p with
  | .error er => .error er
  | .ok i =>
    match L.base.nodeAt i with
    | none => .error .attributeError
    | some n =>
      match n.prev with
      | some j => .ok (L.makePosition j)
      | none => .ok none

/-- `PositionalList.after`: validate, then `_make_position(node._next)`. -/
def PositionalList.after (L : PositionalList) (p : Position) :
    Except Err (Option Position) :=
  match L.validate p with
  | .error er => .error er
  | .ok i =>
    match L.base.nodeAt i with
    | none => .error .attributeError
    | some n =>
      match n.next with
      | some j => .ok (L.makePosition j)
      | none => .ok none

/-- `Position.element`: `return self._node._element` - no validation of any
kind, and the read raises `AttributeError` because `_element` is not a slot
of `_Node`.  The node reference is resolved in its owner's arena. -/
def PositionalList.posElementPy (L : PositionalList) (p : Position) :
    Except Err (Option Int) :=
  match L.base.nodeAt p.node with
  | none => .error .attributeError
  | some n =>
    if ("_element" ∈ nodeSlots) then .ok n.element
    else .error .attributeError

/-- `PositionalList.add_first`: `_insert_between(e, self._header,
self._header._next)` - reading `_header._next` succeeds (declared slot),
then `_insert_between` raises at its node allocation. -/
def PositionalList.addFirstPy (L : PositionalList) (e : Int) :
    Except Err (Option Position × PositionalList) :=
  match L.base.nodeAt L.base.header with
  | none => .error .attributeError
  | some hn =>
    match hn.next with
    | none => .error .attributeError
    | some succ =>
      match L.base.insertBetweenPy (some e) L.base.header succ with
      | .error er => .error er
      | .ok r =>
        .ok ((PositionalList.mk L.tag r.2).makePosition r.1, ⟨L.tag, r.2⟩)

/-- `PositionalList.add_last`: `_insert_between(e, self._trailer._prev,
self._trailer)`. -/
def PositionalList.addLastPy (L : PositionalList) (e : Int) :
    Except Err (Option Position × PositionalList) :=
  match L.base.nodeAt L.base.trailer with
  | none => .error .attributeError
  | some tn =>
    match tn.prev with
    | none => .error .attributeError
    | some pred =>
      match L.base.insertBetweenPy (some e) pred L.base.trailer with
      | .error er => .error er
      | .ok r =>
        .ok ((PositionalList.mk L.tag r.2).makePosition r.1, ⟨L.tag, r.2⟩)

/-- `PositionalList.add_before`: validate, then
`_insert_between(e, original._prev, original)` - the insertion raises at
its node allocation. -/
def PositionalList.addBeforePy (L : PositionalList) (p : Position) (e : Int) :
    Except Err (Option Position × PositionalList) :=
  match L.validate p with
  | .error er => .error er
  | .ok i =>
    match L.base.nodeAt i with
    | none => .error .attributeError
    | some n =>
      match n.prev with
      | none => .error .attributeError
      | some pred =>
        match L.base.insertBetweenPy (some e) pred i with
        | .error er => .error er
        | .ok r =>
          .ok ((PositionalList.mk L.tag r.2).makePosition r.1, ⟨L.tag, r.2⟩)

/-- `PositionalList.add_after`: validate, then
`_insert_between(e, original, original._next)`. -/
def PositionalList.addAfterPy (L : PositionalList) (p : Position) (e : Int) :
    Except Err (Option Position × PositionalList) :=
  match L.validate p with
  | .error er => .error er
  | .ok i =>
    match L.base.nodeAt i with
    | none => .error .attributeError
    | some n =>
      match n.next with
      | none => .error .attributeError
      | some succ =>
        match L.base.insertBetweenPy (some e) i succ with
        | .error er => .error er
        | .ok r =>
          .ok ((PositionalList.mk L.tag r.2).makePosition r.1, ⟨L.tag, r.2⟩)

/-- `PositionalList.delete`: validate, then the inherited `_delete_node`,
which mutates the list (relink and size decrement) before raising at its
`_element` read; the exception propagates with the mutation applied.  A
failed validation leaves the state unchanged. -/
def PositionalList.deletePy (L : PositionalList) (p : Position) :
    (Except Err (Option Int)) × PositionalList :=
  match L.validate p with
  | .error er => (.error er, L)
  | .ok i =>
    match L.base.deleteNodePy i with
    | (r, b') => (r, ⟨L.tag, b'⟩)

/-- `PositionalList.replace`: validate, then `old_value = original._element`
raises `AttributeError` before the overwrite; the state is unchanged. -/
def PositionalList.replacePy (L : PositionalList) (p : Position) (e : Int) :
    Except Err (Option Int × PositionalList) :=
  match L.validate p with
  | .error er => .error er
  | .ok i =>
    match L.base.nodeAt i with
    | none => .error .attributeError
    | some n =>
      if ("_element" ∈ nodeSlots) then
        .ok (n.element,
          ⟨L.tag,
           match L.base.nodes[i]? with
           | some m => { L.base with nodes := L.base.nodes.set i { m with element := some e } }
           | none => L.base⟩)
      else .error .attributeError

/-- True exactly on the `ok` branch of an `Except`. -/
def isOkE : Except Err α → Bool
  | .ok _ => true
  | .error _ => false

/-- The state `_DoublyLinkedBase.__init__` is written to produce: header
(index 0) and trailer (index 1) linked to each other, size 0.  Hypothetical
fixture: `DLBase.init` proves the constructor raises before building it;
the claims' scenarios are evaluated on it to show what the rest of the code
does on the states they presuppose. -/
def emptyState : DLBase :=
  ⟨[⟨none, none, some 1⟩, ⟨none, some 0, none⟩], 0, 1, 0⟩

/-- A hypothetical one-element list state: header 0, trailer 1, one real
node at index 2 holding `5`.  Again unreachable in the program; used as a
fixture. -/
def oneElemState : DLBase :=
  ⟨[⟨none, none, some 2⟩, ⟨none, some 2, none⟩, ⟨some 5, some 0, some 1⟩], 0, 1, 1⟩

/-! ## Theorems

First the facts the `__slots__` mismatch forces, then the claims. -/

/-- `_Node(...)` always raises: `self._element = element` targets an
attribute that is not among the declared slots. -/
theorem nodeInit_err (element : Option Int) (prev next : Option Nat) :
    nodeInit element prev next = .error .attributeError := rfl

/-- `_DoublyLinkedBase.__init__` always raises; no list instance of any of
the three classes is ever constructed. -/
theorem DLBase.init_err : DLBase.init = .error .attributeError := rfl

/-- `_insert_between` always raises at its node allocation, whatever the
state and arguments; the state is not changed and nothing is returned. -/
theorem DLBase.insertBetweenPy_err (b : DLBase) (e : Option Int)
    (pred succ : Nat) :
    b.insertBetweenPy e pred succ = .error .attributeError := by
  rw [DLBase.insertBetweenPy, nodeInit_err]

/-- `_delete_node` always raises at `element = node._element`; it never
returns an element and never writes the deprecation record. -/
theorem DLBase.deleteNodePy_err (b : DLBase) (i : Nat) :
    (b.deleteNodePy i).1 = .error .attributeError := by
  rw [DLBase.deleteNodePy]
  cases h : b.nodeAt i with
  | none => rfl
  | some node =>
    obtain ⟨el, pv, nx⟩ := node
    cases pv <;> cases nx <;> rfl

/-- `PositionalList.delete` never succeeds: validation either raises, or
hands the node to `_delete_node`, which raises. -/
theorem PositionalList.deletePy_not_ok (L : PositionalList) (p : Position) :
    isOkE (L.deletePy p).1 = false := by
  rw [PositionalList.deletePy]
  cases hv : L.validate p with
  | error er => rfl
  | ok i =>
    show isOkE (L.base.deleteNodePy i).1 = false
    rw [DLBase.deleteNodePy_err]
    rfl

/-- `Position.element` always raises `AttributeError` reading
`self._node._element`. -/
theorem PositionalList.posElementPy_err (L : PositionalList) (p : Position) :
    L.posElementPy p = .error .attributeError := by
  rw [PositionalList.posElementPy]
  cases h : L.base.nodeAt p.node with
  | none => rfl
  | some n => rfl

/-- `add_first` always raises (at the node allocation inside
`_insert_between`). -/
theorem PositionalList.addFirstPy_err (L : PositionalList) (e : Int) :
    L.addFirstPy e = .error .attributeError := by
  rw [PositionalList.addFirstPy]
  cases h : L.base.nodeAt L.base.header with
  | none => rfl
  | some hn =>
    obtain ⟨el, pv, nx⟩ := hn
    cases nx with
    | none => rfl
    | some succ =>
      simp only [DLBase.insertBetweenPy_err]

/-- `add_last` always raises. -/
theorem PositionalList.addLastPy_err (L : PositionalList) (e : Int) :
    L.addLastPy e = .error .attributeError := by
  rw [PositionalList.addLastPy]
  cases h : L.base.nodeAt L.base.trailer with
  | none => rfl
  | some tn =>
    obtain ⟨el, pv, nx⟩ := tn
    cases pv with
    | none => rfl
    | some pred =>
      simp only [DLBase.insertBetweenPy_err]

/-- `add_before` never succeeds: validation raises or the insertion does. -/
theorem PositionalList.addBeforePy_not_ok (L : PositionalList) (p : Position)
    (e : Int) : isOkE (L.addBeforePy p e) = false := by
  rw [PositionalList.addBeforePy]
  split
  · rfl
  · split
    · rfl
    · split
      · rfl
      · split
        · rfl
        · rename_i r heq
          rw [DLBase.insertBetweenPy_err] at heq
          exact Except.noConfusion heq

/-- `add_after` never succeeds. -/
theorem PositionalList.addAfterPy_not_ok (L : PositionalList) (p : Position)
    (e : Int) : isOkE (L.addAfterPy p e) = false := by
  rw [PositionalList.addAfterPy]
  split
  · rfl
  · split
    · rfl
    · split
      · rfl
      · split
        · rfl
        · rename_i r heq
          rw [DLBase.insertBetweenPy_err] at heq
          exact Except.noConfusion heq

/-- `replace` never succeeds: validation raises or the `_element` read
does. -/
theorem PositionalList.replacePy_not_ok (L : PositionalList) (p : Position)
    (e : Int) : isOkE (L.replacePy p e) = false := by
  rw [PositionalList.replacePy]
  split
  · rfl
  · split
    · rfl
    · rfl

/-! ## The claims -/

/-- C1: the claim supposes `delete(p)` can succeed and that afterwards every
operation taking `p` fails with InvalidPosition.  In the code, no
`PositionalList` can be constructed (`__init__` raises `AttributeError` in
`_Node.__init__`), `delete` never succeeds on any state (`_delete_node`
raises at `element = node._element`), and the deprecation line that would
mark the node deleted - the very thing `_validate`'s use-after-delete test
looks for - is unreachable.  The conjuncts evaluate the embedded code: the
constructor raises; `delete` never returns on any list and any position;
`_delete_node` always raises. -/
theorem c1_code_bug :
    PositionalList.init 0 = .error .attributeError ∧
    (∀ (L : PositionalList) (p : Position), isOkE (L.deletePy p).1 = false) ∧
    (∀ (b : DLBase) (i : Nat), (b.deleteNodePy i).1 = .error .attributeError) :=
  ⟨rfl, fun L p => PositionalList.deletePy_not_ok L p,
    fun b i => DLBase.deleteNodePy_err b i⟩

/-- C2: the claim quantifies over two distinct `PositionalList` instances,
but the constructor always raises, so no instance - let alone two - ever
exists.  The cross-container `ValueError` itself is implemented exactly as
claimed: granting a hand-built list `B` with identity 1 and a position
carrying identity 0, all six position-taking operations fail with
InvalidPosition before any slots-poisoned access.  So the claim describes
the written validation correctly and fails only because the program cannot
create the instances it speaks about. -/
theorem c2_code_bug :
    (∀ t, PositionalList.init t = .error .attributeError) ∧
    (PositionalList.mk 1 emptyState).before ⟨0, 2⟩ = .error .invalidPosition ∧
    (PositionalList.mk 1 emptyState).after ⟨0, 2⟩ = .error .invalidPosition ∧
    (PositionalList.mk 1 emptyState).addBeforePy ⟨0, 2⟩ 3
      = .error .invalidPosition ∧
    (PositionalList.mk 1 emptyState).addAfterPy ⟨0, 2⟩ 3
      = .error .invalidPosition ∧
    ((PositionalList.mk 1 emptyState).deletePy ⟨0, 2⟩).1
      = .error .invalidPosition ∧
    (PositionalList.mk 1 emptyState).replacePy ⟨0, 2⟩ 3
      = .error .invalidPosition :=
  ⟨fun _ => rfl, rfl, rfl, rfl, rfl, rfl, rfl⟩

/-- C3: the claim supposes `add_after(p, e)` returns a Position `q`.  In the
code `add_after` never returns: `_insert_between` raises `AttributeError`
allocating the node (`_Node.__init__` assigns `_element`, which `__slots__`
does not declare), on every list state and every argument - and no list
exists to call it on in the first place. -/
theorem c3_code_bug :
    (∀ (L : PositionalList) (p : Position) (e : Int),
      isOkE (L.addAfterPy p e) = false) ∧
    (∀ (b : DLBase) (e : Option Int) (x y : Nat),
      b.insertBetweenPy e x y = .error .attributeError) ∧
    (∀ t, PositionalList.init t = .error .attributeError) :=
  ⟨fun L p e => PositionalList.addAfterPy_not_ok L p e,
    fun b e x y => DLBase.insertBetweenPy_err b e x y,
    fun _ => rfl⟩

/-- C4: the claim contrasts PositionalList `first`/`last` (return "no
position", never raise) with the Deque accessors (fail with
EmptyContainer).  In the code, neither container can even be constructed
(the shared `__init__` raises); and on the empty state the constructor is
written to produce, the deque's `first`, `last`, `delete_first` and
`delete_last` raise `NameError` - the module never imports or defines
`Empty` (it lives only in `src/ch06/arrayStack.py`) - not the
Empty/EmptyContainer error.  The PositionalList half of the claim does match
the written code on that state: `first` and `last` touch only the declared
`_prev`/`_next` slots and return `None`. -/
theorem c4_code_bug :
    DLBase.init = .error .attributeError ∧
    (PositionalList.mk 5 emptyState).first = none ∧
    (PositionalList.mk 5 emptyState).last = none ∧
    LinkedDeque.firstPy emptyState = .error .nameError ∧
    LinkedDeque.lastPy emptyState = .error .nameError ∧
    (LinkedDeque.deleteFirstPy emptyState).1 = .error .nameError ∧
    (LinkedDeque.deleteLastPy emptyState).1 = .error .nameError :=
  ⟨rfl, rfl, rfl, rfl, rfl, rfl, rfl⟩

/-- C5: the claim's length law quantifies over sequences of `add_first`,
`add_last` and `delete` on a list that starts empty.  In the code no empty
list exists (the constructor raises); `add_first` and `add_last` raise on
every state without changing it, so no add is ever performed; and a
`delete` that reaches `_delete_node` decrements `_size` and relinks before
raising, so a delete that did *not* succeed still changes the length - on
the one-element fixture, the raising `delete` leaves `_size` at 0.  The
law is about executions the program cannot produce, and even granting the
states, the failed-delete mutation contradicts it. -/
theorem c5_code_bug :
    (∀ t, PositionalList.init t = .error .attributeError) ∧
    (∀ (L : PositionalList) (e : Int),
      L.addFirstPy e = .error .attributeError) ∧
    (∀ (L : PositionalList) (e : Int),
      L.addLastPy e = .error .attributeError) ∧
    ((PositionalList.mk 0 oneElemState).deletePy ⟨0, 2⟩).1
      = .error .attributeError ∧
    ((PositionalList.mk 0 oneElemState).deletePy ⟨0, 2⟩).2.base.size = 0 :=
  ⟨fun _ => rfl, fun L e => PositionalList.addFirstPy_err L e,
    fun L e => PositionalList.addLastPy_err L e, rfl, rfl⟩

/-- C6: the claim describes forward iteration yielding the elements along
the `after` chain from `first`.  `__iter__`'s body calls
`cursor.element()` before anything else it yields, and `Position.element`
raises `AttributeError` on every call (it reads `self._node._element`,
never a slot); and no list can be constructed to iterate.  So iteration as
written yields nothing on a nonempty list - it raises at the first
element. -/
theorem c6_code_bug :
    (∀ (L : PositionalList) (p : Position),
      L.posElementPy p = .error .attributeError) ∧
    DLBase.init = .error .attributeError :=
  ⟨fun L p => PositionalList.posElementPy_err L p, rfl⟩

/-- C7: the claimed round trip `add_last(e)` then `delete(returned
position)` cannot start: `add_last` raises `AttributeError` inside
`_Node.__init__` on every state and never returns a Position, and `delete`
never succeeds either. -/
theorem c7_code_bug :
    (∀ (L : PositionalList) (e : Int),
      L.addLastPy e = .error .attributeError) ∧
    (∀ (L : PositionalList) (p : Position), isOkE (L.deletePy p).1 = false) :=
  ⟨fun L e => PositionalList.addLastPy_err L e,
    fun L p => PositionalList.deletePy_not_ok L p⟩

/-- C8: two Position values compare equal (`__eq__`) exactly when they
reference the same underlying node of the same list - in the arena model
the identity of a node object is the pair (owning instance's tag, arena
index), which is precisely what a `Position` stores.  The comparison never
looks at any stored element, so equality is independent of the payload.
`Position` is an ordinary class untouched by the `__slots__` slip, so this
code really runs as written. -/
theorem c8_position_eq (p q : Position) :
    p.beq q = true ↔ p.container = q.container ∧ p.node = q.node := by
  rw [Position.beq, Bool.and_eq_true, beq_iff_eq, beq_iff_eq]

/-- C9: the claim says `_insert_between` on adjacent nodes always succeeds,
raising no error.  It always raises: its first statement allocates
`self._Node(e, predecessor, successor)`, and `_Node.__init__` raises
`AttributeError` assigning `self._element` (the slot list says `element`).
Adjacency never matters - the failure precedes every other statement, the
splice is dead code, and the count is never incremented. -/
theorem c9_code_bug :
    (∀ (b : DLBase) (e : Option Int) (pred succ : Nat),
      b.insertBetweenPy e pred succ = .error .attributeError) ∧
    (∀ (e : Option Int) (prev next : Option Nat),
      nodeInit e prev next = .error .attributeError) :=
  ⟨fun b e pred succ => DLBase.insertBetweenPy_err b e pred succ,
    fun _ _ _ => rfl⟩

/-- C10: the claim says that after `delete(p)` the call `p.element()` does
not raise and returns the cleared tombstone value `None`.  In the code
`p.element()` always raises `AttributeError` (reading `_node._element`,
which is not a slot), `delete` itself never succeeds (`_delete_node` raises
at its own `_element` read), and the tombstone line is never executed. -/
theorem c10_code_bug :
    (∀ (L : PositionalList) (p : Position),
      L.posElementPy p = .error .attributeError) ∧
    (∀ (b : DLBase) (i : Nat), (b.deleteNodePy i).1 = .error .attributeError) :=
  ⟨fun L p => PositionalList.posElementPy_err L p,
    fun b i => DLBase.deleteNodePy_err b i⟩
